import Mathlib

/-!
Verification of the Leak Detection Result Pipeline
(`src/backend/utils/gemini.js` of `smart-water-leak-detector`).

The JavaScript pipeline is embedded shallowly:
* JSON values produced by `JSON.parse` are the inductive `Json`
  (numbers are modelled as rationals, faithful to JSON decimal numerals);
* JavaScript property access, strict string equality and the
  optional-chained `Array.filter` are explicit functions with the same
  null/undefined behaviour (`undefined` is `Option.none`, a thrown
  `TypeError` is `Except.error`);
* byte buffers are lists of naturals below 256, and `Buffer`'s base64
  codec (`toString("base64")` / `Buffer.from(_, "base64")`, the portable
  text encoding of the pipeline boundary) is implemented from RFC 4648;
* the external effects (the HTTP exchange with the vision service,
  `JSON.parse`, and `sharp`'s metadata/composite raster operations) are
  oracle parameters: the embedding is the control flow of the source
  over every possible behaviour of those effects.
-/

/-- A parsed JSON value, the result type of `JSON.parse` as used by
`analyzeWithGemini` (line 150 of `gemini.js`).  Numbers are rationals;
objects carry their fields in order. -/
inductive Json where
  | null : Json
  | bool (b : Bool) : Json
  | num (q : ℚ) : Json
  | str (s : String) : Json
  | arr (elems : List Json) : Json
  | obj (fields : List (String × Json)) : Json

/-- Field lookup in a parsed JSON object (first binding wins; `JSON.parse`
never produces duplicate keys in its result object). -/
def jsLookup (fields : List (String × Json)) (key : String) : Option Json :=
  match fields with
  | [] => none
  | (k, v) :: rest => if k = key then some v else jsLookup rest key

/-- JavaScript property access `v.key` on a parsed JSON value:
throws a `TypeError` when `v` is `null`, yields `undefined`
(modelled `none`) on primitives and arrays, and looks the key up on
objects.  Used for `leakData.leaks` (line 158) and `leak.confidence`
(lines 158-159). -/
def jsGetField (v : Json) (key : String) : Except String (Option Json) :=
  match v with
  | Json.null => Except.error "TypeError: cannot read properties of null"
  | Json.obj fields => Except.ok (jsLookup fields key)
  | _ => Except.ok none

/-- JavaScript strict equality `v === "s"` of a possibly-undefined value
against a string literal: true exactly when the value is that string. -/
def jsStrictEqStr (v : Option Json) (s : String) : Bool :=
  match v with
  | some (Json.str t) => t == s
  | _ => false

/-- The filter predicate of line 158-159:
`leak.confidence === "high" || leak.confidence === "very high"`.
Property access may throw (`leak` may be `null`). -/
def leakConfPred (leak : Json) : Except String Bool := do
  let c ← jsGetField leak "confidence"
  pure (jsStrictEqStr c "high" || jsStrictEqStr c "very high")

/-- `Array.prototype.filter` with a predicate that may throw: elements are
tested left to right and the first throw propagates (the semantics of the
arrow function at lines 158-159 over a parsed array). -/
def exceptFilter (pred : Json → Except String Bool) :
    List Json → Except String (List Json)
  | [] => Except.ok []
  | x :: xs => do
    let b ← pred x
    let rest ← exceptFilter pred xs
    pure (if b then x :: rest else rest)

/-- `leakData.leaks?.filter(...) || []` (lines 158-160): an absent
(`undefined`) or `null` `leaks` short-circuits the optional chain to
`undefined`, and `undefined || []` yields the empty list; a present
non-array, non-null `leaks` has no `filter` method, so the call throws a
`TypeError`; an array is filtered. -/
def jsOptFilter (leaks : Option Json) (pred : Json → Except String Bool) :
    Except String (List Json) :=
  match leaks with
  | none => Except.ok []
  | some Json.null => Except.ok []
  | some (Json.arr xs) => exceptFilter pred xs
  | some _ => Except.error "TypeError: leakData.leaks.filter is not a function"

/-! ### The base64 boundary codec

`analyzeWithGemini` returns `buffer.toString("base64")` on every path
(lines 21, 137, 154, 176, 187, 191), and the caller decodes it with
`Buffer.from(text, "base64")` (`index.js` line 90).  Both are Node
`Buffer` built-ins; they are modelled here from RFC 4648 (the encoding
Node documents for `"base64"`). -/

/-- The base64 alphabet, sextet value `i` at position `i`. -/
def base64Chars : List Char :=
  ['A', 'B', 'C', 'D', 'E', 'F', 'G', 'H', 'I', 'J', 'K', 'L', 'M',
   'N', 'O', 'P', 'Q', 'R', 'S', 'T', 'U', 'V', 'W', 'X', 'Y', 'Z',
   'a', 'b', 'c', 'd', 'e', 'f', 'g', 'h', 'i', 'j', 'k', 'l', 'm',
   'n', 'o', 'p', 'q', 'r', 's', 't', 'u', 'v', 'w', 'x', 'y', 'z',
   '0', '1', '2', '3', '4', '5', '6', '7', '8', '9', '+', '/']

/-- The character encoding a sextet. -/
def b64CharOf (n : Nat) : Char := base64Chars.getD n '='

/-- The sextet value of an alphabet character. -/
def b64ValueOf (c : Char) : Nat := base64Chars.indexOf c

/-- `Buffer.toString("base64")`: bytes are taken three at a time into four
sextet characters, with `=` padding for a trailing group of one or two
bytes. -/
def base64EncodeList : List Nat → List Char
  | [] => []
  | [b1] =>
      [b64CharOf (b1 / 4), b64CharOf (b1 % 4 * 16), '=', '=']
  | [b1, b2] =>
      [b64CharOf (b1 / 4), b64CharOf (b1 % 4 * 16 + b2 / 16),
       b64CharOf (b2 % 16 * 4), '=']
  | b1 :: b2 :: b3 :: rest =>
      b64CharOf (b1 / 4) :: b64CharOf (b1 % 4 * 16 + b2 / 16) ::
      b64CharOf (b2 % 16 * 4 + b3 / 64) :: b64CharOf (b3 % 64) ::
      base64EncodeList rest

/-- Reassembling bytes from a padding-stripped sextet sequence
(the core of `Buffer.from(_, "base64")`). -/
def bytesOfSextets : List Nat → List Nat
  | v1 :: v2 :: v3 :: v4 :: rest =>
      (v1 * 4 + v2 / 16) :: (v2 % 16 * 16 + v3 / 4) :: (v3 % 4 * 64 + v4) ::
      bytesOfSextets rest
  | [v1, v2, v3] => [v1 * 4 + v2 / 16, v2 % 16 * 16 + v3 / 4]
  | [v1, v2] => [v1 * 4 + v2 / 16]
  | _ => []

/-- `Buffer.from(text, "base64")`: padding is ignored, the remaining
characters are read as sextets and reassembled into bytes. -/
def base64DecodeList (cs : List Char) : List Nat :=
  bytesOfSextets ((cs.filter (fun c => c ≠ '=')).map b64ValueOf)

/-- The base64 text the pipeline returns for a byte buffer. -/
def base64EncodeString (bs : List Nat) : String :=
  String.mk (base64EncodeList bs)

/-- The byte buffer the caller recovers from the pipeline's text. -/
def base64DecodeString (s : String) : List Nat :=
  base64DecodeList s.data

/-! ### Response cleaning (lines 142-146)

`responseText.replace(/```json\n?/g, "").replace(/```\n?/g, "").trim()`:
every occurrence of a fence marker, together with an optional trailing
newline, is deleted in a single left-to-right pass, and the result is
trimmed of surrounding whitespace. -/

/-- Drops one leading newline: the `\n?` part of the fence patterns. -/
def dropOneNewline (l : List Char) : List Char :=
  match l with
  | '\n' :: rest => rest
  | _ => l

/-- One global replace-by-empty of the literal pattern `pat` followed by an
optional newline: scan left to right, delete every occurrence, resume
scanning after the deleted text (the semantics of `.replace(re, "")` with a
global regex of literal characters and `\n?`). -/
def stripFenceMatches (pat : List Char) (l : List Char) : List Char :=
  match l with
  | [] => []
  | c :: rest =>
    if pat ≠ [] ∧ pat.isPrefixOf (c :: rest) then
      stripFenceMatches pat (dropOneNewline (rest.drop (pat.length - 1)))
    else
      c :: stripFenceMatches pat rest
termination_by l.length
decreasing_by
  · have h1 : (dropOneNewline (rest.drop (pat.length - 1))).length ≤
        (rest.drop (pat.length - 1)).length := by
      unfold dropOneNewline
      split
      · rename_i l' rest' heq
        have hlen := congrArg List.length heq
        simp only [List.length_drop, List.length_cons] at hlen
        simp only [List.length_drop]
        omega
      · exact Nat.le_refl _
    have h2 : (rest.drop (pat.length - 1)).length ≤ rest.length := by
      simp [List.length_drop]
    simp only [List.length_cons]
    omega
  · simp [Nat.lt_succ_self]

/-- The fence marker of the first `replace` at line 144. -/
def fenceJson : List Char := "```json".data

/-- The fence marker of the second `replace` at line 145. -/
def fenceBare : List Char := "```".data

/-- Lines 143-146: strip ```json fences, then bare ``` fences, then trim
surrounding whitespace. -/
def cleanResponse (s : String) : String :=
  String.trim (String.mk (stripFenceMatches fenceBare
    (stripFenceMatches fenceJson s.data)))

/-! ### Pressure context (lines 28-43) -/

/-- The three sensitivity tiers of the pressure hint. -/
inductive PressureTier where
  | significant : PressureTier
  | moderate : PressureTier
  | normal : PressureTier
deriving DecidableEq

/-- The nested conditional of lines 37-41 grading `pressureDiff`:
`> 3` is significant, else `> 1.5` is moderate, else normal. -/
def classifyPressureDiff (pressureDiff : ℚ) : PressureTier :=
  if pressureDiff > 3 then PressureTier.significant
  else if pressureDiff > 3/2 then PressureTier.moderate
  else PressureTier.normal

/-- The alert line embedded in the context for each tier (lines 38-41). -/
def pressureMessage (pressureDiff : ℚ) : String :=
  match classifyPressureDiff pressureDiff with
  | PressureTier.significant =>
      "⚠️ ALERT: Significant pressure drop detected (>3 PSI) - Actively search for visible leak evidence!"
  | PressureTier.moderate =>
      "⚠️ WARNING: Moderate pressure drop detected (>1.5 PSI) - Examine carefully for leaks."
  | PressureTier.normal =>
      "✓ Normal pressure difference (<1.5 PSI) - Only flag OBVIOUS visible damage."

/-- Lines 28-43: the pressure context string.  It is empty unless both
readings are non-null (`!== null`); otherwise it reports both readings,
their absolute difference, and the alert line of the difference's tier.
JavaScript number formatting (`toFixed(2)` and default stringification) is
abstracted by `toString`; emptiness and tier selection are the modelled
content. -/
def pressureContext (end1Pressure end2Pressure : Option ℚ) : String :=
  match end1Pressure, end2Pressure with
  | some p1, some p2 =>
    let pressureDiff := |p1 - p2|
    "\nSYSTEM PRESSURE DATA:\n- End 1 Pressure: " ++ toString p1 ++
    " PSI\n- End 2 Pressure: " ++ toString p2 ++
    " PSI\n- Pressure Difference: " ++ toString pressureDiff ++
    " PSI\n\n" ++ pressureMessage pressureDiff ++ "\n"
  | _, _ => ""

/-! ### Annotation renderer (`drawLeakAnnotations`, lines 201-274) -/

/-- A retained detection as destructured at line 210.  The geometry
fields are JSON numbers (rationals); `confidence` and `description` are
only logged and interpolated, never used for placement. -/
structure Leak where
  x : ℚ
  y : ℚ
  width : ℚ
  height : ℚ
  confidence : String
  description : Option String
deriving DecidableEq

/-- Line 216: `const labelY = y > 30 ? y - 10 : y + height + 20` — the
vertical anchor of the label block. -/
def labelAnchorY (leak : Leak) : ℚ :=
  if leak.y > 30 then leak.y - 10 else leak.y + leak.height + 20

/-- Line 217: ``const labelText = `LEAK #${index + 1}` ``. -/
def labelTextFor (index : Nat) : String :=
  "LEAK #" ++ toString (index + 1)

/-- The attributes of the three SVG primitives emitted for one detection
by the template at lines 219-248: the rectangle around the leak, the
label background rectangle, and the label text.  Each field is the
corresponding interpolated attribute of the template. -/
structure SvgLeakElement where
  rectX : ℚ
  rectY : ℚ
  rectW : ℚ
  rectH : ℚ
  rectFill : String
  rectStroke : String
  rectStrokeWidth : ℚ
  labelBgX : ℚ
  labelBgY : ℚ
  labelBgW : ℕ
  labelBgH : ℚ
  labelBgFill : String
  labelBgOpacity : ℚ
  labelTextX : ℚ
  labelTextY : ℚ
  labelFontSize : ℚ
  labelTextFill : String
  labelText : String
deriving DecidableEq

/-- Lines 209-248: the SVG primitives for the detection at position
`index` (0-based, from `leaks.map((leak, index) => ...)`). -/
def svgElementFor (index : Nat) (leak : Leak) : SvgLeakElement :=
  let labelY := labelAnchorY leak
  let labelText := labelTextFor index
  { rectX := leak.x
    rectY := leak.y
    rectW := leak.width
    rectH := leak.height
    rectFill := "rgba(255, 0, 0, 0.15)"
    rectStroke := "red"
    rectStrokeWidth := 5
    labelBgX := leak.x - 5
    labelBgY := labelY - 18
    labelBgW := labelText.length * 10 + 10
    labelBgH := 22
    labelBgFill := "red"
    labelBgOpacity := 9/10
    labelTextX := leak.x
    labelTextY := labelY - 3
    labelFontSize := 16
    labelTextFill := "white"
    labelText := labelText }

/-- Lines 209-249: one SVG element group per detection, in sequence
order, indices from `map`. -/
def svgElements (leaks : List Leak) : List SvgLeakElement :=
  leaks.enum.map (fun p => svgElementFor p.1 p.2)

/-- Lines 251-255: the complete overlay — an SVG canvas of the source
image's metadata dimensions holding the joined elements. -/
structure SvgOverlay where
  canvasW : ℕ
  canvasH : ℕ
  elements : List SvgLeakElement
deriving DecidableEq

/-- The behaviour of the `sharp` raster library during one call of
`drawLeakAnnotations`: the result of `image.metadata()` at line 204
(`none` = the await rejects), and of
`.composite([{input: svg, top: 0, left: 0}]).jpeg({quality: 95}).toBuffer()`
at lines 258-265 as a function of the overlay (`none` = it rejects). -/
structure SharpOracle where
  metadata : Option (Nat × Nat)
  compositeJpeg : SvgOverlay → Option (List Nat)

/-- Lines 201-274: read the metadata, build the overlay, composite it onto
the original and re-encode; the surrounding `try`/`catch` turns any
failure into returning the original buffer unchanged (line 272). -/
def drawLeakAnnotations (imageBuffer : List Nat) (leaks : List Leak)
    (sharp : SharpOracle) : List Nat :=
  match sharp.metadata with
  | none => imageBuffer
  | some (w, h) =>
    match sharp.compositeJpeg
        { canvasW := w, canvasH := h, elements := svgElements leaks } with
    | none => imageBuffer
    | some annotatedBuffer => annotatedBuffer

/-! ### The pipeline (`analyzeWithGemini`, lines 11-193) -/

/-- The observable behaviour of the awaited `axios.post` exchange
(lines 123-133): either the await rejects (network failure, timeout,
non-2xx status), or it resolves and the optional chain
`response.data?.candidates?.[0]?.content?.parts?.[0]?.text` yields either
no text (`none`) or the response text. -/
inductive NetOutcome where
  | fail : NetOutcome
  | ok (text : Option String) : NetOutcome

/-- What one invocation of `analyzeWithGemini` produces for its caller:
the returned base64 text, plus whether the `axios.post` network call and
the `drawLeakAnnotations` renderer were reached. -/
structure PipelineResult where
  output : String
  networkCalled : Bool
  rendererCalled : Bool
deriving DecidableEq

/-- JavaScript truthiness of the `GEMINI_API_KEY` environment string at
line 19: `!key` is true when the variable is unset or empty. -/
def jsFalsyString (s : Option String) : Bool :=
  match s with
  | none => true
  | some t => t.isEmpty

/-- Lines 11-193, `analyzeWithGemini(imageBuffer, end1Pressure,
end2Pressure)`.  External effects are parameters: `apiKey` is the
`GEMINI_API_KEY` environment variable, `serviceCall` the Gemini exchange
as a function of the pressure-context portion of the prompt (the only
varying part of the request), `jsonParse` the `JSON.parse` built-in
(`none` = it throws), and `render` the awaited `drawLeakAnnotations`
call (total: its body is wrapped in its own `try`/`catch`, line 270).
A thrown `Error` is `Except.error`; the `try`/`catch` at lines 24/189
converts every internal throw into returning the original image's
base64.  The `console.*` logging statements have no modelled effect. -/
def analyzeWithGemini (imageBuffer : Option (List Nat))
    (end1Pressure end2Pressure : Option ℚ)
    (apiKey : Option String)
    (serviceCall : String → NetOutcome)
    (jsonParse : String → Option Json)
    (render : List Nat → List Json → List Nat) :
    Except String PipelineResult :=
  match imageBuffer with
  | none => Except.error "No image buffer provided!"
  | some buf =>
    if buf.length = 0 then Except.error "No image buffer provided!"
    else if jsFalsyString apiKey then
      Except.ok { output := base64EncodeString buf,
                  networkCalled := false, rendererCalled := false }
    else
      -- `base64Image` (line 25) and the catch block's
      -- `imageBuffer.toString("base64")` (line 191) both denote
      -- `base64EncodeString buf`, written out below.
      match serviceCall (pressureContext end1Pressure end2Pressure) with
      | NetOutcome.fail =>
          Except.ok { output := base64EncodeString buf,
                      networkCalled := true, rendererCalled := false }
      | NetOutcome.ok none =>
          Except.ok { output := base64EncodeString buf,
                      networkCalled := true, rendererCalled := false }
      | NetOutcome.ok (some responseText) =>
        match jsonParse (cleanResponse responseText) with
        | none =>
            Except.ok { output := base64EncodeString buf,
                        networkCalled := true, rendererCalled := false }
        | some leakData =>
          match (jsGetField leakData "leaks").bind
              (fun lf => jsOptFilter lf leakConfPred) with
          | Except.error _ =>
              Except.ok { output := base64EncodeString buf,
                          networkCalled := true, rendererCalled := false }
          | Except.ok highConfidenceLeaks =>
            if highConfidenceLeaks.isEmpty then
              Except.ok { output := base64EncodeString buf,
                          networkCalled := true, rendererCalled := false }
            else
              Except.ok { output :=
                            base64EncodeString (render buf highConfidenceLeaks),
                          networkCalled := true, rendererCalled := true }

/-- The spec's characterisation of the confidence filter (§4.4): a raw
detection is retained exactly when its `confidence` field equals the
string "high" or the synonym "very high". -/
def specHighConfidence (leak : Json) : Bool :=
  match leak with
  | Json.obj fields =>
    match jsLookup fields "confidence" with
    | some (Json.str s) => s == "high" || s == "very high"
    | _ => false
  | _ => false

/-- A concrete retained detection used as a test input: the spec scenario
`{"x":10,"y":10,"width":50,"height":40,"confidence":"high",
"description":"stain"}`. -/
def sampleLeak : Leak :=
  { x := 10, y := 10, width := 50, height := 40,
    confidence := "high", description := some "stain" }

/-- A second concrete retained detection used as a test input. -/
def sampleLeak2 : Leak :=
  { x := 20, y := 35, width := 5, height := 5,
    confidence := "very high", description := none }

/-! ### Helper lemmas -/

theorem b64ValueOf_b64CharOf {n : Nat} (h : n < 64) :
    b64ValueOf (b64CharOf n) = n := by
  interval_cases n <;> rfl

theorem b64CharOf_ne_pad {n : Nat} (h : n < 64) : b64CharOf n ≠ '=' := by
  interval_cases n <;> decide

/-- Decoding inverts encoding on genuine byte lists. -/
theorem base64_decode_encode (bs : List Nat) (h : ∀ b ∈ bs, b < 256) :
    base64DecodeList (base64EncodeList bs) = bs := by
  induction bs using base64EncodeList.induct with
  | case1 => rfl
  | case2 b1 =>
      have hb1 : b1 < 256 := h b1 (by simp)
      have h1 : b1 / 4 < 64 := by omega
      have h2 : b1 % 4 * 16 < 64 := by omega
      simp [base64EncodeList, base64DecodeList, b64CharOf_ne_pad h1,
        b64CharOf_ne_pad h2, b64ValueOf_b64CharOf h1,
        b64ValueOf_b64CharOf h2, bytesOfSextets]
      omega
  | case3 b1 b2 =>
      have hb1 : b1 < 256 := h b1 (by simp)
      have hb2 : b2 < 256 := h b2 (by simp)
      have h1 : b1 / 4 < 64 := by omega
      have h2 : b1 % 4 * 16 + b2 / 16 < 64 := by omega
      have h3 : b2 % 16 * 4 < 64 := by omega
      simp [base64EncodeList, base64DecodeList, b64CharOf_ne_pad h1,
        b64CharOf_ne_pad h2, b64CharOf_ne_pad h3, b64ValueOf_b64CharOf h1,
        b64ValueOf_b64CharOf h2, b64ValueOf_b64CharOf h3, bytesOfSextets]
      omega
  | case4 b1 b2 b3 rest ih =>
      have hb1 : b1 < 256 := h b1 (by simp)
      have hb2 : b2 < 256 := h b2 (by simp)
      have hb3 : b3 < 256 := h b3 (by simp)
      have h1 : b1 / 4 < 64 := by omega
      have h2 : b1 % 4 * 16 + b2 / 16 < 64 := by omega
      have h3 : b2 % 16 * 4 + b3 / 64 < 64 := by omega
      have h4 : b3 % 64 < 64 := by omega
      have ih' := ih (fun b hb => h b (by simp [hb]))
      simp only [base64EncodeList, base64DecodeList, List.filter_cons,
        List.map_cons] at *
      rw [if_pos, if_pos, if_pos, if_pos]
      · simp only [bytesOfSextets, b64ValueOf_b64CharOf h1,
          b64ValueOf_b64CharOf h2, b64ValueOf_b64CharOf h3,
          b64ValueOf_b64CharOf h4, List.cons.injEq]
        exact ⟨by omega, by omega, by omega, ih'⟩
      · exact decide_eq_true (by simpa using b64CharOf_ne_pad h4)
      · exact decide_eq_true (by simpa using b64CharOf_ne_pad h3)
      · exact decide_eq_true (by simpa using b64CharOf_ne_pad h2)
      · exact decide_eq_true (by simpa using b64CharOf_ne_pad h1)

theorem jsStrictEq_confidence (c : Option Json) :
    (jsStrictEqStr c "high" || jsStrictEqStr c "very high") =
      (match c with
       | some (Json.str s) => s == "high" || s == "very high"
       | _ => false) := by
  match c with
  | none => rfl
  | some Json.null => rfl
  | some (Json.bool b) => rfl
  | some (Json.num q) => rfl
  | some (Json.str s) => rfl
  | some (Json.arr es) => rfl
  | some (Json.obj fs) => rfl

/-- On a parsed JSON object the predicate of lines 158-159 cannot throw,
and decides exactly the spec's retention condition. -/
theorem leakConfPred_obj (fields : List (String × Json)) :
    leakConfPred (Json.obj fields) =
      Except.ok (specHighConfidence (Json.obj fields)) := by
  simp only [leakConfPred, jsGetField, specHighConfidence]
  rcases jsLookup fields "confidence" with _ | v
  · rfl
  · cases v <;> rfl

/-- On a list of parsed JSON objects the effectful filter of lines 158-159
never throws and agrees with the pure filter by the spec's predicate. -/
theorem exceptFilter_on_objects (xs : List Json)
    (h : ∀ l ∈ xs, ∃ fields, l = Json.obj fields) :
    exceptFilter leakConfPred xs = Except.ok (xs.filter specHighConfidence) := by
  induction xs with
  | nil => rfl
  | cons x xs ih =>
    obtain ⟨fields, rfl⟩ := h x (by simp)
    have ih' := ih (fun l hl => h l (by simp [hl]))
    rw [List.filter_cons]
    cases hspec : specHighConfidence (Json.obj fields) <;>
      simp only [exceptFilter, leakConfPred_obj, ih', hspec] <;> rfl

theorem classify_significant_iff (d : ℚ) :
    classifyPressureDiff d = PressureTier.significant ↔ 3 < d := by
  unfold classifyPressureDiff
  split_ifs with h1 h2 <;> simp_all

theorem classify_moderate_iff (d : ℚ) :
    classifyPressureDiff d = PressureTier.moderate ↔ 3/2 < d ∧ d ≤ 3 := by
  unfold classifyPressureDiff
  split_ifs with h1 h2 <;> simp_all

theorem classify_normal_iff (d : ℚ) :
    classifyPressureDiff d = PressureTier.normal ↔ d ≤ 3/2 := by
  unfold classifyPressureDiff
  split_ifs with h1 h2 <;> simp_all
  linarith

/-! ### Claims -/

/-- Claim C3: the pressure context builder is a pure classification: the
context is empty when either reading is absent; with both present the
selected alert line is that of `classifyPressureDiff |end1 - end2|`, whose
tier is "significant" exactly when the difference exceeds 3, "moderate"
exactly when it lies in (1.5, 3], and "normal" exactly when it is at most
1.5; the pair (20, 16.5) classifies significant and (12, 12.8) normal. -/
theorem claim_C3 :
    (∀ end1Pressure end2Pressure : Option ℚ,
        end1Pressure = none ∨ end2Pressure = none →
        pressureContext end1Pressure end2Pressure = "") ∧
    (∀ p1 p2 : ℚ,
        pressureContext (some p1) (some p2) ≠ "" ∧
        List.IsSuffix ((pressureMessage |p1 - p2|).data ++ ['\n'])
          (pressureContext (some p1) (some p2)).data) ∧
    (∀ d : ℚ,
        (classifyPressureDiff d = PressureTier.significant ↔ 3 < d) ∧
        (classifyPressureDiff d = PressureTier.moderate ↔ 3/2 < d ∧ d ≤ 3) ∧
        (classifyPressureDiff d = PressureTier.normal ↔ d ≤ 3/2)) ∧
    classifyPressureDiff |20 - 33/2| = PressureTier.significant ∧
    classifyPressureDiff |12 - 64/5| = PressureTier.normal := by
  refine ⟨?_, ?_, ?_, ?_, ?_⟩
  · intro e1 e2 h
    rcases h with h | h
    · subst h; cases e2 <;> rfl
    · subst h; cases e1 <;> rfl
  · intro p1 p2
    constructor
    · simp [pressureContext, String.ext_iff]
    · refine ⟨("\nSYSTEM PRESSURE DATA:\n- End 1 Pressure: ").data ++
        (toString p1).data ++ (" PSI\n- End 2 Pressure: ").data ++
        (toString p2).data ++ (" PSI\n- Pressure Difference: ").data ++
        (toString |p1 - p2|).data ++ (" PSI\n\n").data, ?_⟩
      simp [pressureContext]
  · intro d
    exact ⟨classify_significant_iff d, classify_moderate_iff d,
      classify_normal_iff d⟩
  · rw [classify_significant_iff]
    rw [show |(20 : ℚ) - 33/2| = 7/2 by rw [abs_of_nonneg] <;> norm_num]
    norm_num
  · rw [classify_normal_iff]
    rw [show |(12 : ℚ) - 64/5| = 4/5 by rw [abs_of_nonpos] <;> norm_num]
    norm_num

/-- Witness for C3 at concrete inputs: an absent second reading yields the
empty context, and the two scenario pairs classify as stated. -/
theorem claim_C3_witness :
    pressureContext (some 20) none = "" ∧
    classifyPressureDiff |20 - 33/2| = PressureTier.significant ∧
    classifyPressureDiff |12 - 64/5| = PressureTier.normal :=
  ⟨claim_C3.1 (some 20) none (Or.inr rfl), claim_C3.2.2.2.1,
    claim_C3.2.2.2.2⟩

/-- Claim C4: with no configured API key (the environment variable unset or
empty, the code's `!GEMINI_API_KEY` test), every valid non-empty image
yields exactly the base64 encoding of the input bytes, with no network
call and no rendering. -/
theorem claim_C4 (buf : List Nat) (hbuf : buf ≠ [])
    (end1Pressure end2Pressure : Option ℚ) (apiKey : Option String)
    (hkey : jsFalsyString apiKey = true)
    (serviceCall : String → NetOutcome) (jsonParse : String → Option Json)
    (render : List Nat → List Json → List Nat) :
    analyzeWithGemini (some buf) end1Pressure end2Pressure apiKey
        serviceCall jsonParse render =
      Except.ok { output := base64EncodeString buf,
                  networkCalled := false, rendererCalled := false } := by
  have hlen : ¬ buf.length = 0 := by simpa using hbuf
  simp [analyzeWithGemini, hlen, hkey]

/-- Witness for C4: a concrete three-byte image with the key unset. -/
theorem claim_C4_witness :
    analyzeWithGemini (some [1, 2, 3]) none none none
        (fun _ => NetOutcome.fail) (fun _ => none) (fun b _ => b) =
      Except.ok { output := base64EncodeString [1, 2, 3],
                  networkCalled := false, rendererCalled := false } :=
  claim_C4 [1, 2, 3] (by decide) none none none rfl _ _ _

/-- Claim C9: decoding the base64 text the pipeline emits for a byte buffer
recovers that buffer byte-for-byte. -/
theorem claim_C9 (bs : List Nat) (h : ∀ b ∈ bs, b < 256) :
    base64DecodeString (base64EncodeString bs) = bs :=
  base64_decode_encode bs h

/-- Witness for C9 on a concrete buffer. -/
theorem claim_C9_witness :
    base64DecodeString (base64EncodeString [77, 97, 110, 255, 0]) =
      [77, 97, 110, 255, 0] :=
  claim_C9 [77, 97, 110, 255, 0] (by decide)

/-- Claim C2: whenever the fence-stripped response text fails to parse as
JSON, `analyzeWithGemini` raises nothing and returns the base64 of the
unmodified source image. -/
theorem claim_C2 (buf : List Nat) (hbuf : buf ≠ [])
    (end1Pressure end2Pressure : Option ℚ) (apiKey : Option String)
    (hkey : jsFalsyString apiKey = false)
    (serviceCall : String → NetOutcome) (responseText : String)
    (hnet : serviceCall (pressureContext end1Pressure end2Pressure) =
      NetOutcome.ok (some responseText))
    (jsonParse : String → Option Json)
    (hparse : jsonParse (cleanResponse responseText) = none)
    (render : List Nat → List Json → List Nat) :
    analyzeWithGemini (some buf) end1Pressure end2Pressure apiKey
        serviceCall jsonParse render =
      Except.ok { output := base64EncodeString buf,
                  networkCalled := true, rendererCalled := false } := by
  have hlen : ¬ buf.length = 0 := by simpa using hbuf
  simp [analyzeWithGemini, hlen, hkey, hnet, hparse]

/-- Witness for C2: a truncated fenced response that no JSON parser
accepts, on a concrete one-byte image. -/
theorem claim_C2_witness :
    analyzeWithGemini (some [7]) none none (some "key")
        (fun _ => NetOutcome.ok (some "```json\n\x7b\"leaks\": tru"))
        (fun _ => none) (fun b _ => b) =
      Except.ok { output := base64EncodeString [7],
                  networkCalled := true, rendererCalled := false } :=
  claim_C2 [7] (by decide) none none (some "key") rfl _
    "```json\n\x7b\"leaks\": tru" rfl _ rfl _

/-- Claim C10: a response that parses to anything other than an object
holding an array under `leaks` still yields the base64 of the unmodified
image with no escaping exception and no rendering; an absent `leaks` is
the empty list via the optional chain, while a present non-array `leaks`
(and a `null` top level) throws internally and is absorbed. -/
theorem claim_C10 (buf : List Nat) (hbuf : buf ≠ [])
    (end1Pressure end2Pressure : Option ℚ) (apiKey : Option String)
    (hkey : jsFalsyString apiKey = false)
    (serviceCall : String → NetOutcome) (responseText : String)
    (hnet : serviceCall (pressureContext end1Pressure end2Pressure) =
      NetOutcome.ok (some responseText))
    (jsonParse : String → Option Json) (v : Json)
    (hparse : jsonParse (cleanResponse responseText) = some v)
    (hshape : ∀ fields xs, v = Json.obj fields →
      jsLookup fields "leaks" ≠ some (Json.arr xs))
    (render : List Nat → List Json → List Nat) :
    analyzeWithGemini (some buf) end1Pressure end2Pressure apiKey
        serviceCall jsonParse render =
      Except.ok { output := base64EncodeString buf,
                  networkCalled := true, rendererCalled := false } ∧
    jsOptFilter none leakConfPred = Except.ok [] ∧
    (∃ msg, (jsGetField Json.null "leaks").bind
        (fun lf => jsOptFilter lf leakConfPred) = Except.error msg) ∧
    (∃ msg, jsOptFilter (some (Json.num 5)) leakConfPred =
        Except.error msg) := by
  refine ⟨?_, rfl, ⟨_, rfl⟩, ⟨_, rfl⟩⟩
  have hlen : ¬ buf.length = 0 := by simpa using hbuf
  match v with
  | Json.null =>
      simp [analyzeWithGemini, hlen, hkey, hnet, hparse, jsGetField,
        Except.bind]
  | Json.bool b =>
      simp [analyzeWithGemini, hlen, hkey, hnet, hparse, jsGetField,
        jsOptFilter, Except.bind]
  | Json.num q =>
      simp [analyzeWithGemini, hlen, hkey, hnet, hparse, jsGetField,
        jsOptFilter, Except.bind]
  | Json.str s =>
      simp [analyzeWithGemini, hlen, hkey, hnet, hparse, jsGetField,
        jsOptFilter, Except.bind]
  | Json.arr es =>
      simp [analyzeWithGemini, hlen, hkey, hnet, hparse, jsGetField,
        jsOptFilter, Except.bind]
  | Json.obj fields =>
      cases hlk : jsLookup fields "leaks" with
      | none =>
          simp [analyzeWithGemini, hlen, hkey, hnet, hparse, jsGetField,
            hlk, jsOptFilter, Except.bind]
      | some w =>
          match w with
          | Json.null =>
              simp [analyzeWithGemini, hlen, hkey, hnet, hparse, jsGetField,
                hlk, jsOptFilter, Except.bind]
          | Json.bool b =>
              simp [analyzeWithGemini, hlen, hkey, hnet, hparse, jsGetField,
                hlk, jsOptFilter, Except.bind]
          | Json.num q =>
              simp [analyzeWithGemini, hlen, hkey, hnet, hparse, jsGetField,
                hlk, jsOptFilter, Except.bind]
          | Json.str s =>
              simp [analyzeWithGemini, hlen, hkey, hnet, hparse, jsGetField,
                hlk, jsOptFilter, Except.bind]
          | Json.obj fs =>
              simp [analyzeWithGemini, hlen, hkey, hnet, hparse, jsGetField,
                hlk, jsOptFilter, Except.bind]
          | Json.arr xs => exact absurd hlk (hshape fields xs rfl)

/-- Witness for C10: the response `{"leaks": 5}` — `leaks` present but not
an array — on a concrete one-byte image. -/
theorem claim_C10_witness :
    analyzeWithGemini (some [7]) none none (some "key")
        (fun _ => NetOutcome.ok (some "\x7b\"leaks\": 5\x7d"))
        (fun _ => some (Json.obj [("leaks", Json.num 5)])) (fun b _ => b) =
      Except.ok { output := base64EncodeString [7],
                  networkCalled := true, rendererCalled := false } ∧
    jsOptFilter none leakConfPred = Except.ok [] ∧
    (∃ msg, (jsGetField Json.null "leaks").bind
        (fun lf => jsOptFilter lf leakConfPred) = Except.error msg) ∧
    (∃ msg, jsOptFilter (some (Json.num 5)) leakConfPred =
        Except.error msg) :=
  claim_C10 [7] (by decide) none none (some "key") rfl _ "\x7b\"leaks\": 5\x7d"
    rfl _ (Json.obj [("leaks", Json.num 5)]) rfl
    (by
      intro fields xs h hcontra
      cases h
      simp [jsLookup] at hcontra)
    (fun b _ => b)

/-- With a non-empty buffer the pipeline resolves (never throws) for every
behaviour of the environment, the service, the parser and the renderer. -/
theorem analyze_ok_of_nonempty (buf : List Nat) (hbuf : buf ≠ [])
    (end1Pressure end2Pressure : Option ℚ) (apiKey : Option String)
    (serviceCall : String → NetOutcome) (jsonParse : String → Option Json)
    (render : List Nat → List Json → List Nat) :
    ∃ r, analyzeWithGemini (some buf) end1Pressure end2Pressure apiKey
        serviceCall jsonParse render = Except.ok r := by
  have hlen : ¬ buf.length = 0 := by simpa using hbuf
  by_cases hk : jsFalsyString apiKey = true
  · exact ⟨{ output := base64EncodeString buf, networkCalled := false, rendererCalled := false },
      by simp [analyzeWithGemini, hlen, hk]⟩
  · rw [Bool.not_eq_true] at hk
    cases hsc : serviceCall (pressureContext end1Pressure end2Pressure) with
    | fail =>
        exact ⟨{ output := base64EncodeString buf, networkCalled := true, rendererCalled := false },
          by simp [analyzeWithGemini, hlen, hk, hsc]⟩
    | ok t =>
      cases t with
      | none =>
          exact ⟨{ output := base64EncodeString buf, networkCalled := true, rendererCalled := false },
            by simp [analyzeWithGemini, hlen, hk, hsc]⟩
      | some responseText =>
        cases hp : jsonParse (cleanResponse responseText) with
        | none =>
            exact ⟨{ output := base64EncodeString buf, networkCalled := true, rendererCalled := false },
              by simp [analyzeWithGemini, hlen, hk, hsc, hp]⟩
        | some leakData =>
          cases hb : (jsGetField leakData "leaks").bind
              (fun lf => jsOptFilter lf leakConfPred) with
          | error msg =>
              exact ⟨{ output := base64EncodeString buf, networkCalled := true, rendererCalled := false },
                by simp [analyzeWithGemini, hlen, hk, hsc, hp, hb]⟩
          | ok highConfidenceLeaks =>
            cases he : highConfidenceLeaks.isEmpty with
            | true =>
                exact ⟨{ output := base64EncodeString buf, networkCalled := true, rendererCalled := false },
                  by simp [analyzeWithGemini, hlen, hk, hsc, hp, hb, he]⟩
            | false =>
                exact ⟨{ output := base64EncodeString (render buf highConfidenceLeaks), networkCalled := true, rendererCalled := true },
                  by simp [analyzeWithGemini, hlen, hk, hsc, hp, hb, he]⟩

/-- Claim C5: the pipeline throws exactly when the image buffer is absent
or empty; with a non-empty buffer it always resolves, and each non-input
failure kind — unconfigured key, network failure/timeout, missing response
text, unparseable response, schema throw, rendering failure — degrades to
the base64 of the original unannotated image. -/
theorem claim_C5 :
    (∀ (imageBuffer : Option (List Nat))
        (end1Pressure end2Pressure : Option ℚ) (apiKey : Option String)
        (serviceCall : String → NetOutcome) (jsonParse : String → Option Json)
        (render : List Nat → List Json → List Nat),
        ((∃ msg, analyzeWithGemini imageBuffer end1Pressure end2Pressure
            apiKey serviceCall jsonParse render = Except.error msg) ↔
          (imageBuffer = none ∨ imageBuffer = some []))) ∧
    (∀ (buf : List Nat), buf ≠ [] →
      ∀ (end1Pressure end2Pressure : Option ℚ) (apiKey : Option String)
        (serviceCall : String → NetOutcome) (jsonParse : String → Option Json)
        (render : List Nat → List Json → List Nat),
        (jsFalsyString apiKey = true →
          analyzeWithGemini (some buf) end1Pressure end2Pressure apiKey
              serviceCall jsonParse render =
            Except.ok { output := base64EncodeString buf,
                        networkCalled := false, rendererCalled := false }) ∧
        (jsFalsyString apiKey = false →
          serviceCall (pressureContext end1Pressure end2Pressure) =
            NetOutcome.fail →
          analyzeWithGemini (some buf) end1Pressure end2Pressure apiKey
              serviceCall jsonParse render =
            Except.ok { output := base64EncodeString buf,
                        networkCalled := true, rendererCalled := false }) ∧
        (jsFalsyString apiKey = false →
          serviceCall (pressureContext end1Pressure end2Pressure) =
            NetOutcome.ok none →
          analyzeWithGemini (some buf) end1Pressure end2Pressure apiKey
              serviceCall jsonParse render =
            Except.ok { output := base64EncodeString buf,
                        networkCalled := true, rendererCalled := false }) ∧
        (jsFalsyString apiKey = false →
          ∀ responseText,
            serviceCall (pressureContext end1Pressure end2Pressure) =
              NetOutcome.ok (some responseText) →
            jsonParse (cleanResponse responseText) = none →
            analyzeWithGemini (some buf) end1Pressure end2Pressure apiKey
                serviceCall jsonParse render =
              Except.ok { output := base64EncodeString buf,
                          networkCalled := true, rendererCalled := false }) ∧
        (jsFalsyString apiKey = false →
          ∀ responseText v msg,
            serviceCall (pressureContext end1Pressure end2Pressure) =
              NetOutcome.ok (some responseText) →
            jsonParse (cleanResponse responseText) = some v →
            (jsGetField v "leaks").bind
                (fun lf => jsOptFilter lf leakConfPred) =
              Except.error msg →
            analyzeWithGemini (some buf) end1Pressure end2Pressure apiKey
                serviceCall jsonParse render =
              Except.ok { output := base64EncodeString buf,
                          networkCalled := true, rendererCalled := false })) ∧
    (∀ (buf : List Nat) (leaks : List Leak) (sharp : SharpOracle),
        (sharp.metadata = none → drawLeakAnnotations buf leaks sharp = buf) ∧
        (∀ w h, sharp.metadata = some (w, h) →
          sharp.compositeJpeg { canvasW := w, canvasH := h,
                                elements := svgElements leaks } = none →
          drawLeakAnnotations buf leaks sharp = buf)) ∧
    (∀ (buf : List Nat), buf ≠ [] →
      ∀ (end1Pressure end2Pressure : Option ℚ) (apiKey : Option String)
        (serviceCall : String → NetOutcome) (jsonParse : String → Option Json)
        (render : List Nat → List Json → List Nat),
        (∀ ls, render buf ls = buf) →
        ∀ r, analyzeWithGemini (some buf) end1Pressure end2Pressure apiKey
            serviceCall jsonParse render = Except.ok r →
          r.output = base64EncodeString buf) := by
  refine ⟨?_, ?_, ?_, ?_⟩
  · intro imageBuffer e1 e2 apiKey serviceCall jsonParse render
    constructor
    · rintro ⟨msg, hmsg⟩
      match imageBuffer with
      | none => exact Or.inl rfl
      | some [] => exact Or.inr rfl
      | some (b :: bs) =>
        obtain ⟨r, hr⟩ := analyze_ok_of_nonempty (b :: bs) (by simp)
          e1 e2 apiKey serviceCall jsonParse render
        rw [hr] at hmsg
        exact absurd hmsg (by simp)
    · rintro (rfl | rfl)
      · exact ⟨_, rfl⟩
      · exact ⟨_, rfl⟩
  · intro buf hbuf e1 e2 apiKey serviceCall jsonParse render
    have hlen : ¬ buf.length = 0 := by simpa using hbuf
    refine ⟨?_, ?_, ?_, ?_, ?_⟩
    · intro hk
      simp [analyzeWithGemini, hlen, hk]
    · intro hk hnet
      simp [analyzeWithGemini, hlen, hk, hnet]
    · intro hk hnet
      simp [analyzeWithGemini, hlen, hk, hnet]
    · intro hk responseText hnet hparse
      simp [analyzeWithGemini, hlen, hk, hnet, hparse]
    · intro hk responseText v msg hnet hparse hthrow
      simp [analyzeWithGemini, hlen, hk, hnet, hparse, hthrow]
  · intro buf leaks sharp
    constructor
    · intro hm
      simp [drawLeakAnnotations, hm]
    · intro w h hm hc
      simp [drawLeakAnnotations, hm, hc]
  · intro buf hbuf e1 e2 apiKey serviceCall jsonParse render hrd r hr
    have hlen : ¬ buf.length = 0 := by simpa using hbuf
    by_cases hk : jsFalsyString apiKey = true
    · rw [show analyzeWithGemini (some buf) e1 e2 apiKey serviceCall
          jsonParse render = Except.ok { output := base64EncodeString buf, networkCalled := false, rendererCalled := false } by
          simp [analyzeWithGemini, hlen, hk]] at hr
      cases hr
      rfl
    · rw [Bool.not_eq_true] at hk
      cases hsc : serviceCall (pressureContext e1 e2) with
      | fail =>
          rw [show analyzeWithGemini (some buf) e1 e2 apiKey serviceCall
              jsonParse render = Except.ok { output := base64EncodeString buf, networkCalled := true, rendererCalled := false } by
              simp [analyzeWithGemini, hlen, hk, hsc]] at hr
          cases hr
          rfl
      | ok t =>
        cases t with
        | none =>
            rw [show analyzeWithGemini (some buf) e1 e2 apiKey serviceCall
                jsonParse render = Except.ok { output := base64EncodeString buf, networkCalled := true, rendererCalled := false } by
                simp [analyzeWithGemini, hlen, hk, hsc]] at hr
            cases hr
            rfl
        | some responseText =>
          cases hp : jsonParse (cleanResponse responseText) with
          | none =>
              rw [show analyzeWithGemini (some buf) e1 e2 apiKey serviceCall
                  jsonParse render = Except.ok { output := base64EncodeString buf, networkCalled := true, rendererCalled := false } by
                  simp [analyzeWithGemini, hlen, hk, hsc, hp]] at hr
              cases hr
              rfl
          | some leakData =>
            cases hb : (jsGetField leakData "leaks").bind
                (fun lf => jsOptFilter lf leakConfPred) with
            | error msg =>
                rw [show analyzeWithGemini (some buf) e1 e2 apiKey serviceCall
                    jsonParse render = Except.ok { output := base64EncodeString buf, networkCalled := true, rendererCalled := false } by
                    simp [analyzeWithGemini, hlen, hk, hsc, hp, hb]] at hr
                cases hr
                rfl
            | ok hl =>
              cases he : hl.isEmpty with
              | true =>
                  rw [show analyzeWithGemini (some buf) e1 e2 apiKey serviceCall
                      jsonParse render = Except.ok { output := base64EncodeString buf, networkCalled := true, rendererCalled := false } by
                      simp [analyzeWithGemini, hlen, hk, hsc, hp, hb, he]] at hr
                  cases hr
                  rfl
              | false =>
                  rw [show analyzeWithGemini (some buf) e1 e2 apiKey serviceCall
                      jsonParse render = Except.ok { output := base64EncodeString (render buf hl), networkCalled := true, rendererCalled := true } by
                      simp [analyzeWithGemini, hlen, hk, hsc, hp, hb, he]] at hr
                  cases hr
                  simp [hrd hl]

/-- Witness for C5 at concrete inputs: an absent buffer throws, a network
failure on a one-byte image passes the original through, and a failing
renderer returns the original buffer. -/
theorem claim_C5_witness :
    (∃ msg, analyzeWithGemini none none none (some "key")
        (fun _ => NetOutcome.fail) (fun _ => none) (fun b _ => b) =
          Except.error msg) ∧
    analyzeWithGemini (some [7]) none none (some "key")
        (fun _ => NetOutcome.fail) (fun _ => none) (fun b _ => b) =
      Except.ok { output := base64EncodeString [7],
                  networkCalled := true, rendererCalled := false } ∧
    drawLeakAnnotations [7] [] { metadata := none,
                                 compositeJpeg := fun _ => none } = [7] :=
  ⟨(claim_C5.1 none none none (some "key") (fun _ => NetOutcome.fail)
      (fun _ => none) (fun b _ => b)).mpr (Or.inl rfl),
   (claim_C5.2.1 [7] (by decide) none none (some "key")
      (fun _ => NetOutcome.fail) (fun _ => none) (fun b _ => b)).2.1 rfl rfl,
   (claim_C5.2.2.1 [7] []
      { metadata := none, compositeJpeg := fun _ => none }).1 rfl⟩

/-- Claim C1: the confidence filter retains exactly the raw detections
whose `confidence` equals "high" or "very high" (no other value retained,
entries unmodified), keeps their original relative order, and when the
retained list is empty the pipeline returns the base64 of the unmodified
source image without invoking the renderer. -/
theorem claim_C1 :
    (∀ xs : List Json, (∀ l ∈ xs, ∃ fields, l = Json.obj fields) →
      exceptFilter leakConfPred xs =
        Except.ok (xs.filter specHighConfidence) ∧
      List.Sublist (xs.filter specHighConfidence) xs) ∧
    (∀ (buf : List Nat), buf ≠ [] →
      ∀ (end1Pressure end2Pressure : Option ℚ) (apiKey : Option String),
        jsFalsyString apiKey = false →
        ∀ (serviceCall : String → NetOutcome) (responseText : String),
          serviceCall (pressureContext end1Pressure end2Pressure) =
            NetOutcome.ok (some responseText) →
          ∀ (jsonParse : String → Option Json)
            (fields : List (String × Json)) (xs : List Json),
            jsonParse (cleanResponse responseText) =
              some (Json.obj fields) →
            jsLookup fields "leaks" = some (Json.arr xs) →
            (∀ l ∈ xs, ∃ fs, l = Json.obj fs) →
            xs.filter specHighConfidence = [] →
            ∀ render,
              analyzeWithGemini (some buf) end1Pressure end2Pressure apiKey
                  serviceCall jsonParse render =
                Except.ok { output := base64EncodeString buf,
                            networkCalled := true,
                            rendererCalled := false }) := by
  constructor
  · intro xs hobj
    exact ⟨exceptFilter_on_objects xs hobj, List.filter_sublist xs⟩
  · intro buf hbuf e1 e2 apiKey hkey serviceCall responseText hnet
      jsonParse fields xs hparse hlk hobj hempty render
    have hlen : ¬ buf.length = 0 := by simpa using hbuf
    have hfilter : (jsGetField (Json.obj fields) "leaks").bind
        (fun lf => jsOptFilter lf leakConfPred) = Except.ok [] := by
      simp [jsGetField, hlk, jsOptFilter, Except.bind,
        exceptFilter_on_objects xs hobj, hempty]
    simp [analyzeWithGemini, hlen, hkey, hnet, hparse, hfilter]

/-- Witness for C1: a single medium-confidence raw detection is dropped
and the concrete pipeline run passes the original one-byte image through
without rendering. -/
theorem claim_C1_witness :
    (exceptFilter leakConfPred [Json.obj [("confidence", Json.str "medium")]] =
      Except.ok ([Json.obj [("confidence", Json.str "medium")]].filter
        specHighConfidence) ∧
     List.Sublist ([Json.obj [("confidence", Json.str "medium")]].filter
        specHighConfidence) [Json.obj [("confidence", Json.str "medium")]]) ∧
    analyzeWithGemini (some [7]) none none (some "key")
        (fun _ => NetOutcome.ok
          (some "\x7b\"leaks\":[\x7b\"confidence\":\"medium\"\x7d]\x7d"))
        (fun _ => some (Json.obj [("leaks",
          Json.arr [Json.obj [("confidence", Json.str "medium")]])]))
        (fun b _ => b) =
      Except.ok { output := base64EncodeString [7],
                  networkCalled := true, rendererCalled := false } :=
  ⟨claim_C1.1 [Json.obj [("confidence", Json.str "medium")]]
      (by intro l hl; simp only [List.mem_singleton] at hl; exact ⟨_, hl⟩),
   claim_C1.2 [7] (by decide) none none (some "key") rfl _
      "\x7b\"leaks\":[\x7b\"confidence\":\"medium\"\x7d]\x7d" rfl _
      [("leaks", Json.arr [Json.obj [("confidence", Json.str "medium")]])]
      [Json.obj [("confidence", Json.str "medium")]] rfl rfl
      (by intro l hl; simp only [List.mem_singleton] at hl; exact ⟨_, hl⟩)
      rfl (fun b _ => b)⟩

/-- Counterexample to C6 as stated: one retained high-confidence detection,
but the raster compositing step fails, so `drawLeakAnnotations` returns the
input buffer unchanged (lines 270-273) — the output does not differ from
the input. -/
theorem claim_C6_cex :
    (svgElements [sampleLeak]).length = 1 ∧
    drawLeakAnnotations [0, 1, 2] [sampleLeak]
        { metadata := some (100, 100), compositeJpeg := fun _ => none } =
      [0, 1, 2] :=
  ⟨rfl, rfl⟩

/-- Claim C6 (amended): for every non-empty retained sequence of length N
the overlay holds exactly N label regions reading "LEAK #1" … "LEAK #N",
label i belonging to the i-th retained detection, and whenever the raster
compositing succeeds the renderer's output is the composite of the input
with that overlay (the unmodified input is returned only when metadata
reading or compositing fails). -/
theorem claim_C6 (leaks : List Leak) (hne : leaks ≠ []) :
    (svgElements leaks).length = leaks.length ∧
    0 < (svgElements leaks).length ∧
    (∀ (i : Nat) (l : Leak), leaks[i]? = some l →
      (svgElements leaks)[i]? = some (svgElementFor i l) ∧
      (svgElementFor i l).labelText = "LEAK #" ++ toString (i + 1) ∧
      (svgElementFor i l).rectX = l.x ∧ (svgElementFor i l).rectY = l.y ∧
      (svgElementFor i l).rectW = l.width ∧
      (svgElementFor i l).rectH = l.height) ∧
    (∀ (imageBuffer : List Nat) (sharp : SharpOracle) (w h : Nat)
        (out : List Nat),
      sharp.metadata = some (w, h) →
      sharp.compositeJpeg { canvasW := w, canvasH := h,
                            elements := svgElements leaks } = some out →
      drawLeakAnnotations imageBuffer leaks sharp = out) := by
  refine ⟨?_, ?_, ?_, ?_⟩
  · simp [svgElements]
  · simp only [svgElements, List.length_map, List.enum_length]
    exact List.length_pos.mpr hne
  · intro i l hget
    refine ⟨?_, rfl, rfl, rfl, rfl, rfl⟩
    simp [svgElements, List.getElem?_map, List.getElem?_enum, hget]
  · intro imageBuffer sharp w h out hm hc
    simp [drawLeakAnnotations, hm, hc]

/-- Witness for C6 on a concrete detection list, image and successful
raster oracle. -/
theorem claim_C6_witness :
    (svgElements [sampleLeak]).length = [sampleLeak].length ∧
    drawLeakAnnotations [0, 1, 2] [sampleLeak]
        { metadata := some (100, 100), compositeJpeg := fun _ => some [9, 9] } =
      [9, 9] :=
  ⟨(claim_C6 [sampleLeak] (List.cons_ne_nil _ _)).1,
   (claim_C6 [sampleLeak] (List.cons_ne_nil _ _)).2.2.2 [0, 1, 2]
      { metadata := some (100, 100), compositeJpeg := fun _ => some [9, 9] }
      100 100 [9, 9] rfl rfl⟩

/-- Claim C7: the label block sits above its rectangle exactly when
`y > 30` (anchor `y - 10`), otherwise directly below at `y + height + 20`,
and this placement depends only on `y`, `height` and the 30-pixel
threshold. -/
theorem claim_C7 (index : Nat) (leak : Leak) (hh : 0 ≤ leak.height) :
    ((svgElementFor index leak).labelBgY +
        (svgElementFor index leak).labelBgH ≤
        (svgElementFor index leak).rectY ↔ leak.y > 30) ∧
    (leak.y > 30 →
      (svgElementFor index leak).labelBgY = leak.y - 10 - 18) ∧
    (¬ leak.y > 30 →
      (svgElementFor index leak).labelBgY =
        leak.y + leak.height + 20 - 18 ∧
      leak.y + leak.height ≤ (svgElementFor index leak).labelBgY) ∧
    (∀ (j : Nat) (leak2 : Leak), leak2.y = leak.y →
      leak2.height = leak.height →
      (svgElementFor j leak2).labelBgY =
        (svgElementFor index leak).labelBgY) := by
  have e : (svgElementFor index leak).labelBgY = labelAnchorY leak - 18 := rfl
  have eh : (svgElementFor index leak).labelBgH = 22 := rfl
  have ey : (svgElementFor index leak).rectY = leak.y := rfl
  refine ⟨?_, ?_, ?_, ?_⟩
  · rw [e, eh, ey]
    unfold labelAnchorY
    split_ifs with hy
    · constructor
      · intro _; exact hy
      · intro _; linarith
    · constructor
      · intro hcontra; exfalso; linarith
      · intro hcontra; exact absurd hcontra hy
  · intro hy
    rw [e]
    unfold labelAnchorY
    rw [if_pos hy]
  · intro hy
    rw [e]
    unfold labelAnchorY
    rw [if_neg hy]
    exact ⟨rfl, by linarith⟩
  · intro j leak2 h1 h2
    show labelAnchorY leak2 - 18 = labelAnchorY leak - 18
    unfold labelAnchorY
    rw [h1, h2]

/-- Witness for C7: the spec scenario detection (10, 10, 50, 40) with
`y = 10 ≤ 30` anchors its label below the rectangle. -/
theorem claim_C7_witness :
    (svgElementFor 0 sampleLeak).labelBgY = 10 + 40 + 20 - 18 ∧
    (10 : ℚ) + 40 ≤ (svgElementFor 0 sampleLeak).labelBgY :=
  (claim_C7 0 sampleLeak (by norm_num [sampleLeak])).2.2.1
    (by norm_num [sampleLeak])

/-- Counterexample to C8 as stated: the label background is not opaque —
its fill opacity is the source's literal 0.9 (the code's own comment calls
it semi-transparent), not 1. -/
theorem claim_C8_cex :
    (svgElementFor 0 sampleLeak).labelBgOpacity ≠ 1 := by
  show (9 / 10 : ℚ) ≠ 1
  norm_num

/-- Claim C8 (amended): the label background is rendered at the fixed high
fill opacity 0.9 (nearly opaque, not fully), and its width is
`10 · length + 10`, proportional to the label text length, so a strictly
longer label — e.g. "LEAK #10" versus "LEAK #1" — gets a strictly wider
background. -/
theorem claim_C8 (i j : Nat) (leak leak2 : Leak) :
    (svgElementFor i leak).labelBgOpacity = 9 / 10 ∧
    (svgElementFor i leak).labelBgW =
      10 * (svgElementFor i leak).labelText.length + 10 ∧
    ((svgElementFor i leak).labelText.length >
        (svgElementFor j leak2).labelText.length →
      (svgElementFor i leak).labelBgW > (svgElementFor j leak2).labelBgW) ∧
    labelTextFor 9 = "LEAK #10" ∧ labelTextFor 0 = "LEAK #1" ∧
    (svgElementFor 9 leak).labelBgW > (svgElementFor 0 leak2).labelBgW := by
  refine ⟨rfl, ?_, ?_, rfl, rfl, ?_⟩
  · show (labelTextFor i).length * 10 + 10 = 10 * (labelTextFor i).length + 10
    ring
  · intro hlt
    show (labelTextFor i).length * 10 + 10 > (labelTextFor j).length * 10 + 10
    have hlt' : (labelTextFor i).length > (labelTextFor j).length := hlt
    omega
  · show (labelTextFor 9).length * 10 + 10 > (labelTextFor 0).length * 10 + 10
    decide

/-- Witness for C8: "LEAK #10" (8 characters) gets a strictly wider
background than "LEAK #1" (7 characters). -/
theorem claim_C8_witness :
    (svgElementFor 9 sampleLeak).labelBgW >
      (svgElementFor 0 sampleLeak2).labelBgW :=
  (claim_C8 9 0 sampleLeak sampleLeak2).2.2.1 (by decide)
